import Mathlib

/-!
Reconciliation of StatefulSets in `pkg/controller/chi/creator.go`

A shallow embedding of the create / update / wait / failure-policy code of the
ClickHouse operator, followed by theorems about it.

Conventions of the embedding.

* Go pointers that the code dereferences are `Option`s where the code tests them
  for `nil` or where a `nil` would be dereferenced (`Spec.Replicas`); a `nil`
  dereference is the outcome `panic`.
* `int64` / `int32` fields that are only compared for equality are `Int`.
  `time.Duration` arithmetic wraps at 64 bits (`wrapInt64`).
* The Kubernetes API, the lister, the clock and the helper methods of the
  controller that live in other files are an explicit `Platform`: every call is
  appended to the `trace` of the `World`, and the answer to a call is a function
  of the number of calls made so far and of the call's arguments.
* The wall clock read by `time.Now` / `time.Since` is `wallClock`: the time the
  run has spent in its sleeps (`World.clock`, each `<-time.After(d)` adding the
  least it can take, `max d 0`) plus the time everything else has taken
  (`Platform.overhead`, chosen by the platform).
* `glog` output is not modelled: it has no influence on control flow.
* The `for { ... }` loop of the waiter runs on fuel; `Run.outOfFuel` is the
  outcome of a run that needs more iterations than the fuel allows.
-/

namespace ClickHouseOperator

/-! ## Data model -/

/-- Go `error` values. `api` is an error handed back by the platform (API client,
lister, controller helper), classified by `apierrors.IsNotFound`; `errorString`
is an error built in `creator.go` by `errors.New` / `fmt.Errorf`. -/
inductive Error where
  | api (notFound : Bool) (msg : String)
  | errorString (msg : String)
deriving DecidableEq, Repr

/-- Go `apierrors.IsNotFound(err)`; `none` is the `nil` error. -/
def IsNotFound : Option Error → Bool
  | some (Error.api notFound _) => notFound
  | _ => false

/-- The fields of `meta.ObjectMeta` the code reads. -/
structure ObjectMeta where
  Namespace : String
  Name : String
  Generation : Int
  ResourceVersion : String
deriving DecidableEq, Repr

/-- Go `apps.StatefulSetSpec`: `Replicas` is a `*int32`; `Template` stands for the
remaining fields of the spec, which the code only copies. -/
structure StatefulSetSpec where
  Replicas : Option Int
  Template : String
deriving DecidableEq, Repr

/-- Go `apps.StatefulSetStatus`. -/
structure StatefulSetStatus where
  ObservedGeneration : Int
  Replicas : Int
  ReadyReplicas : Int
  CurrentReplicas : Int
  UpdatedReplicas : Int
  CurrentRevision : String
  UpdateRevision : String
deriving DecidableEq, Repr

/-- Go `apps.StatefulSet` (`ObjectMeta` is embedded, so its fields are promoted). -/
structure StatefulSet extends ObjectMeta where
  Spec : StatefulSetSpec
  Status : StatefulSetStatus
deriving DecidableEq, Repr

/-- Go `(*StatefulSetSpec).DeepCopy` followed by the dereference `*`: a copy that
is equal to the original as a value. -/
def StatefulSetSpec.DeepCopy (spec : StatefulSetSpec) : StatefulSetSpec :=
  { Replicas := spec.Replicas, Template := spec.Template }

/-! ## hasStatefulSetReachedGeneration -/

/-- Go `hasStatefulSetReachedGeneration` (creator.go 300-317). The argument is a
pointer (`none` = `nil`). The result `none` is the run-time panic of
`*statefulSet.Spec.Replicas` on a `nil` `Replicas`, which `&&` reaches only when
the two generation tests before it are true. -/
def hasStatefulSetReachedGeneration (statefulSet : Option StatefulSet) (generation : Int) :
    Option Bool :=
  match statefulSet with
  | none => some false
  | some ss =>
    if ss.Generation = generation then
      if ss.Status.ObservedGeneration = ss.Generation then
        match ss.Spec.Replicas with
        | none => none
        | some replicas =>
          some (decide (ss.Status.ReadyReplicas = replicas) &&
            (decide (ss.Status.CurrentReplicas = replicas) &&
              (decide (ss.Status.UpdatedReplicas = replicas) &&
                decide (ss.Status.CurrentRevision = ss.Status.UpdateRevision))))
      else some false
    else some false

/-! ## The platform and the world -/

/-- Go `chop.ChiStatus`, the two counters the code increments. The declaration is
in a file that is not part of the sources at hand; the counters are integers and
`++` is addition of one. -/
structure ChiStatus where
  AddedHostsCount : Int
  UpdatedHostsCount : Int
deriving DecidableEq, Repr

/-- Go `chop.ClickHouseInstallation`, as far as the code reads it. -/
structure ClickHouseInstallation where
  Name : String
  Status : ChiStatus
deriving DecidableEq, Repr

/-- Go `chop.ChiHost`: a name and the back-reference `Chi` to the owning
installation. -/
structure ChiHost where
  Name : String
  Chi : ClickHouseInstallation
deriving DecidableEq, Repr

/-- One interaction of the controller with its surroundings. -/
inductive Call where
  | getStatefulSet (objMeta : ObjectMeta)
  | listerGet (namespace_ name : String)
  | create (statefulSet : StatefulSet)
  | update (statefulSet : StatefulSet)
  | sleep (d : Int)
  | updateChiObjectStatus (chi : ClickHouseInstallation)
  | deleteHost (host : ChiHost)
  | statefulSetDeletePod (statefulSet : Option StatefulSet)
deriving DecidableEq, Repr

/-- What `kubeClient.AppsV1().StatefulSets(ns).Update` hands back: on success the
stored object, on failure an error together with whatever object pointer the
client returns with it (possibly `nil`). -/
inductive UpdateResult where
  | ok (statefulSet : StatefulSet)
  | fail (statefulSet : Option StatefulSet) (err : Error)
deriving DecidableEq, Repr

/-- The surroundings of the controller. Each field answers one kind of call; the
first argument is the number of calls made before this one.

Modelled from the spec: `getStatefulSet`, `updateChiObjectStatus`, `deleteHost`
and `statefulSetDeletePod` are methods of the controller defined outside
`creator.go`; they are taken as platform calls that return a value and leave the
in-memory host and its counters alone ("fetch by name", "persist (best-effort)",
"delete the failed resource (best-effort)", "pod-deletion primitive").

`overhead n` is the wall-clock time, in nanoseconds, that has passed beyond the
nominal durations of the sleeps at the moment `n` calls have been made: the time
taken by the calls and by the code between them, and what a sleep took beyond its
duration. On a real clock it never decreases. -/
structure Platform where
  getStatefulSet : Nat → ObjectMeta → Option StatefulSet × Option Error
  listerGet : Nat → String → String → Except Error StatefulSet
  create : Nat → StatefulSet → Except Error StatefulSet
  update : Nat → StatefulSet → UpdateResult
  updateChiObjectStatus : Nat → ClickHouseInstallation → Option Error
  deleteHost : Nat → ChiHost → Option Error
  statefulSetDeletePod : Nat → Option StatefulSet → Option Error
  overhead : Nat → Int

/-- The mutable surroundings: `clock`, the nanoseconds the run has spent in its
sleeps so far (the part of the monotonic clock that the sleeps account for), and
the calls made so far, oldest first. -/
structure World where
  clock : Int
  trace : List Call
deriving DecidableEq, Repr

/-- Append a call to the trace. -/
def World.record (w : World) (c : Call) : World :=
  { clock := w.clock, trace := w.trace ++ [c] }

/-- The outcome of running a piece of the controller: it returns `a` in world `w`,
it panics, or the fuel of the waiter's loop is used up. -/
inductive Run (α : Type) where
  | done (a : α) (w : World)
  | panic (w : World)
  | outOfFuel
deriving DecidableEq, Repr

/-- Sequencing: continue with `f` when `r` returned. -/
def Run.andThen {α β : Type} (r : Run α) (f : α → World → Run β) : Run β :=
  match r with
  | Run.done a w => f a w
  | Run.panic w => Run.panic w
  | Run.outOfFuel => Run.outOfFuel

/-- The fields of the operator configuration (`chopConfigManager.Config()`) that
`creator.go` reads. The two periods are numbers of seconds; the two actions are
strings. -/
structure Config where
  StatefulSetUpdateTimeout : Int
  StatefulSetUpdatePollPeriod : Int
  OnStatefulSetCreateFailureAction : String
  OnStatefulSetUpdateFailureAction : String
deriving DecidableEq, Repr

/-- Modelled from the spec: the constant `chop.OnStatefulSetCreateFailureActionAbort`
(policy value "Abort" of the create-failure table); its declaration is not in the
sources at hand. -/
def OnStatefulSetCreateFailureActionAbort : String := "abort"

/-- Modelled from the spec: the constant `chop.OnStatefulSetCreateFailureActionDelete`
(policy value "Delete" of the create-failure table). -/
def OnStatefulSetCreateFailureActionDelete : String := "delete"

/-- Modelled from the spec: the constant `chop.OnStatefulSetUpdateFailureActionAbort`
(policy value "Abort" of the update-failure table). -/
def OnStatefulSetUpdateFailureActionAbort : String := "abort"

/-- Modelled from the spec: the constant `chop.OnStatefulSetUpdateFailureActionRollback`
(policy value "Rollback" of the update-failure table). -/
def OnStatefulSetUpdateFailureActionRollback : String := "rollback"

/-! ## Time -/

/-- Go `time.Second`, in nanoseconds. -/
def Second : Int := 1000000000

/-- Two's-complement wrap of an integer into `int64`. -/
def wrapInt64 (x : Int) : Int := (x + 2 ^ 63) % 2 ^ 64 - 2 ^ 63

/-- Largest `time.Duration`. -/
def maxDuration : Int := 2 ^ 63 - 1

/-- Smallest `time.Duration`. -/
def minDuration : Int := -(2 ^ 63)

/-- Go `time.Duration(n) * time.Second` for a configured number of seconds `n`:
conversion to `int64` and multiplication, both wrapping. -/
def secondsDuration (n : Int) : Int := wrapInt64 (wrapInt64 n * Second)

/-- Go `time.Since(start)` read at clock value `now`: the difference, saturated to
the range of `time.Duration`. -/
def Since (start now : Int) : Int := max minDuration (min (now - start) maxDuration)

/-- The world after `<-time.After(d)`: the sleep has taken `d`, and nothing when
`d` is not positive (the timer fires at once); what it took beyond that is part of
the platform's `overhead`. -/
def World.sleep (w : World) (d : Int) : World :=
  { clock := w.clock + max d 0, trace := w.trace ++ [Call.sleep d] }

/-- The reading of the monotonic wall clock in world `w`, as `time.Now()` takes it:
the time spent in sleeps plus the time everything else has taken so far. -/
def wallClock (p : Platform) (w : World) : Int :=
  w.clock + p.overhead w.trace.length

/-! ## waitStatefulSetGeneration -/

/-- The error of creator.go line 197. -/
def waitTimeoutError (namespace_ name : String) : Error :=
  Error.errorString ("waitStatefulSetGeneration(" ++ namespace_ ++ "/" ++ name ++ ") - wait timeout")

/-- What one pass through the body of the `for` loop does: leave the function with
a return value, go round again, or panic. -/
inductive Iteration where
  | exit (err : Option Error) (w : World)
  | again (w : World)
  | panic (w : World)
deriving DecidableEq, Repr

/-- Lines 192-204: reached when the StatefulSet is not there yet or has not reached
the generation. Timeout test, then the sleep. -/
def waitMore (p : Platform) (cfg : Config) (namespace_ name : String) (start : Int)
    (w : World) : Iteration :=
  if Since start (wallClock p w) ≥ secondsDuration cfg.StatefulSetUpdateTimeout then
    Iteration.exit (some (waitTimeoutError namespace_ name)) w
  else
    Iteration.again (w.sleep (secondsDuration cfg.StatefulSetUpdatePollPeriod))

/-- One pass through the body of the `for` loop of `waitStatefulSetGeneration`
(lines 172-204), `start` being the value of `time.Now()` taken before the loop. -/
def waitIteration (p : Platform) (cfg : Config) (namespace_ name : String)
    (targetGeneration : Int) (start : Int) (w : World) : Iteration :=
  let w1 := w.record (Call.listerGet namespace_ name)
  match p.listerGet w.trace.length namespace_ name with
  | Except.ok statefulSet =>
    match hasStatefulSetReachedGeneration (some statefulSet) targetGeneration with
    | none => Iteration.panic w1
    | some true => Iteration.exit none w1
    | some false => waitMore p cfg namespace_ name start w1
  | Except.error err =>
    if IsNotFound (some err) then waitMore p cfg namespace_ name start w1
    else Iteration.exit (some err) w1

/-- The `for` loop of `waitStatefulSetGeneration`, on fuel. -/
def waitLoop (p : Platform) (cfg : Config) (namespace_ name : String)
    (targetGeneration : Int) (start : Int) : Nat → World → Run (Option Error)
  | 0, _ => Run.outOfFuel
  | fuel + 1, w =>
    match waitIteration p cfg namespace_ name targetGeneration start w with
    | Iteration.exit err w1 => Run.done err w1
    | Iteration.again w1 => waitLoop p cfg namespace_ name targetGeneration start fuel w1
    | Iteration.panic w1 => Run.panic w1

/-- Go `waitStatefulSetGeneration` (creator.go 167-206): `start := time.Now()`,
then the loop. The returned `Option Error` is the Go `error` (`none` = `nil`). -/
def waitStatefulSetGeneration (p : Platform) (cfg : Config) (fuel : Nat)
    (namespace_ name : String) (targetGeneration : Int) (w : World) : Run (Option Error) :=
  waitLoop p cfg namespace_ name targetGeneration (wallClock p w) fuel w

/-! ## Failure policies -/

/-- Go `shouldContinueOnCreateFailed` (creator.go 272-283). -/
def shouldContinueOnCreateFailed : Option Error :=
  let continueUpdate := false
  if continueUpdate then none
  else some (Error.errorString "create stopped due to previous errors")

/-- Go `shouldContinueOnUpdateFailed` (creator.go 286-297). -/
def shouldContinueOnUpdateFailed : Option Error :=
  let continueUpdate := false
  if continueUpdate then none
  else some (Error.errorString "update stopped due to previous errors")

/-- Go `onStatefulSetCreateFailed` (creator.go 210-231). The answer of `deleteHost`
is discarded (`_ =`). -/
def onStatefulSetCreateFailed (_p : Platform) (cfg : Config) (failedStatefulSet : StatefulSet)
    (host : ChiHost) (w : World) : Run (Option Error) :=
  let namespace_ := failedStatefulSet.Namespace
  let name := failedStatefulSet.Name
  if cfg.OnStatefulSetCreateFailureAction = OnStatefulSetCreateFailureActionAbort then
    Run.done (some (Error.errorString ("Create failed on " ++ namespace_ ++ "/" ++ name))) w
  else if cfg.OnStatefulSetCreateFailureAction = OnStatefulSetCreateFailureActionDelete then
    Run.done shouldContinueOnCreateFailed (w.record (Call.deleteHost host))
  else
    Run.done none w

/-- Go `onStatefulSetUpdateFailed` (creator.go 235-269). In the rollback branch the
object handed to `statefulSetDeletePod` is the pointer the rollback `Update`
returned, whether that call failed or not. -/
def onStatefulSetUpdateFailed (p : Platform) (cfg : Config) (rollbackStatefulSet : StatefulSet)
    (w : World) : Run (Option Error) :=
  let namespace_ := rollbackStatefulSet.Namespace
  let name := rollbackStatefulSet.Name
  if cfg.OnStatefulSetUpdateFailureAction = OnStatefulSetUpdateFailureActionAbort then
    Run.done (some (Error.errorString ("Update failed on " ++ namespace_ ++ "/" ++ name))) w
  else if cfg.OnStatefulSetUpdateFailureAction = OnStatefulSetUpdateFailureActionRollback then
    let w1 := w.record (Call.listerGet namespace_ name)
    match p.listerGet w.trace.length namespace_ name with
    | Except.error err => Run.done (some err) w1
    | Except.ok statefulSet =>
      let statefulSet1 : StatefulSet :=
        { toObjectMeta := statefulSet.toObjectMeta,
          Spec := rollbackStatefulSet.Spec.DeepCopy,
          Status := statefulSet.Status }
      let w2 := w1.record (Call.update statefulSet1)
      let statefulSet2 : Option StatefulSet :=
        match p.update w1.trace.length statefulSet1 with
        | UpdateResult.ok updated => some updated
        | UpdateResult.fail obj _ => obj
      let w3 := w2.record (Call.statefulSetDeletePod statefulSet2)
      Run.done shouldContinueOnUpdateFailed w3
  else
    Run.done none w

/-! ## Create and update paths -/

/-- Go `createStatefulSet` (creator.go 119-130). The waiter and the failure policy
work on the object returned by `Create`, which shadows the argument. -/
def createStatefulSet (p : Platform) (cfg : Config) (fuel : Nat) (statefulSet : StatefulSet)
    (host : ChiHost) (w : World) : Run (Option Error) :=
  let w1 := w.record (Call.create statefulSet)
  match p.create w.trace.length statefulSet with
  | Except.error err => Run.done (some err) w1
  | Except.ok created =>
    Run.andThen
      (waitStatefulSetGeneration p cfg fuel created.Namespace created.Name created.Generation w1)
      fun err w2 =>
        match err with
        | none => Run.done none w2
        | some _ => onStatefulSetCreateFailed p cfg created host w2

/-- Go `updateStatefulSet` (creator.go 132-164). -/
def updateStatefulSet (p : Platform) (cfg : Config) (fuel : Nat)
    (oldStatefulSet newStatefulSet : StatefulSet) (w : World) : Run (Option Error) :=
  let namespace_ := newStatefulSet.Namespace
  let name := newStatefulSet.Name
  let w1 := w.record (Call.update newStatefulSet)
  match p.update w.trace.length newStatefulSet with
  | UpdateResult.fail _ err => Run.done (some err) w1
  | UpdateResult.ok updatedStatefulSet =>
    if updatedStatefulSet.Generation = oldStatefulSet.Generation then
      Run.done none w1
    else
      Run.andThen
        (waitStatefulSetGeneration p cfg fuel namespace_ name updatedStatefulSet.Generation w1)
        fun err w2 =>
          match err with
          | none => Run.done none w2
          | some _ => onStatefulSetUpdateFailed p cfg oldStatefulSet w2

/-! ## ReconcileStatefulSet -/

/-- Go `host.Chi.Status.UpdatedHostsCount++`. -/
def ChiHost.incUpdatedHostsCount (host : ChiHost) : ChiHost :=
  { Name := host.Name,
    Chi := { Name := host.Chi.Name,
             Status := { AddedHostsCount := host.Chi.Status.AddedHostsCount,
                         UpdatedHostsCount := host.Chi.Status.UpdatedHostsCount + 1 } } }

/-- Go `host.Chi.Status.AddedHostsCount++`. -/
def ChiHost.incAddedHostsCount (host : ChiHost) : ChiHost :=
  { Name := host.Name,
    Chi := { Name := host.Chi.Name,
             Status := { AddedHostsCount := host.Chi.Status.AddedHostsCount + 1,
                         UpdatedHostsCount := host.Chi.Status.UpdatedHostsCount } } }

/-- Lines 101-106 of `ReconcileStatefulSet`: the `if curStatefulSet != nil` block.
It yields the value of `err` and the host after the block. -/
def reconcileUpdateBlock (p : Platform) (cfg : Config) (fuel : Nat)
    (curStatefulSet : Option StatefulSet) (err : Option Error)
    (newStatefulSet : StatefulSet) (host : ChiHost) (w : World) : Run (Option Error × ChiHost) :=
  match curStatefulSet with
  | some cur =>
    Run.andThen (updateStatefulSet p cfg fuel cur newStatefulSet w) fun err1 w1 =>
      let host1 := host.incUpdatedHostsCount
      Run.done (err1, host1) (w1.record (Call.updateChiObjectStatus host1.Chi))
  | none => Run.done (err, host) w

/-- Lines 108-116 of `ReconcileStatefulSet`: the `if apierrors.IsNotFound(err)` block
and the final `return err`. -/
def reconcileCreateBlock (p : Platform) (cfg : Config) (fuel : Nat) (err : Option Error)
    (newStatefulSet : StatefulSet) (host : ChiHost) (w : World) : Run (Option Error × ChiHost) :=
  if IsNotFound err then
    Run.andThen (createStatefulSet p cfg fuel newStatefulSet host w) fun err1 w1 =>
      let host1 := host.incAddedHostsCount
      Run.done (err1, host1) (w1.record (Call.updateChiObjectStatus host1.Chi))
  else Run.done (err, host) w

/-- Go `ReconcileStatefulSet` (creator.go 97-117). The result is the returned error
together with the host as the call leaves it (the host is passed by pointer and its
counters are incremented in place). -/
def ReconcileStatefulSet (p : Platform) (cfg : Config) (fuel : Nat)
    (newStatefulSet : StatefulSet) (host : ChiHost) (w : World) : Run (Option Error × ChiHost) :=
  let fetched := p.getStatefulSet w.trace.length newStatefulSet.toObjectMeta
  let w1 := w.record (Call.getStatefulSet newStatefulSet.toObjectMeta)
  Run.andThen (reconcileUpdateBlock p cfg fuel fetched.1 fetched.2 newStatefulSet host w1)
    fun r w2 => reconcileCreateBlock p cfg fuel r.1 newStatefulSet r.2 w2

/-! ## Concrete inputs -/

/-- A StatefulSet of generation 5 whose status still reports generation 4, all
replica counters equal to the desired single replica. -/
def lagging : StatefulSet :=
  { Namespace := "ns", Name := "chi-a-0-0", Generation := 5, ResourceVersion := "17",
    Spec := { Replicas := some 1, Template := "t2" },
    Status := { ObservedGeneration := 4, Replicas := 1, ReadyReplicas := 1,
                CurrentReplicas := 1, UpdatedReplicas := 1,
                CurrentRevision := "r1", UpdateRevision := "r1" } }

/-- A StatefulSet of generation 4 that is fully rolled out. -/
def converged : StatefulSet :=
  { Namespace := "ns", Name := "chi-a-0-0", Generation := 4, ResourceVersion := "16",
    Spec := { Replicas := some 1, Template := "t" },
    Status := { ObservedGeneration := 4, Replicas := 1, ReadyReplicas := 1,
                CurrentReplicas := 1, UpdatedReplicas := 1,
                CurrentRevision := "r1", UpdateRevision := "r1" } }

/-- The trace of `k` rounds of the waiter that end in a sleep: a fetch, then a sleep
of `d` nanoseconds, `k` times. -/
def pollCalls (namespace_ name : String) (d : Int) : Nat → List Call
  | 0 => []
  | k + 1 => Call.listerGet namespace_ name :: Call.sleep d :: pollCalls namespace_ name d k

/-- A fetch that leaves the waiter waiting: an object on which
`hasStatefulSetReachedGeneration` is false (no panic), or a not-found error. -/
def stillPending (targetGeneration : Int) (r : Except Error StatefulSet) : Bool :=
  match r with
  | Except.ok statefulSet =>
    decide (hasStatefulSetReachedGeneration (some statefulSet) targetGeneration = some false)
  | Except.error err => IsNotFound (some err)

/-- The not-found error of the lister. -/
def notFoundError : Error := Error.api true "statefulset.apps \"chi-a-0-0\" not found"

/-- An error of the platform that is not a not-found error. -/
def serverError : Error := Error.api false "etcdserver: request timed out"

/-- A platform on which the StatefulSet is never there: every fetch is a not-found
error, `Create` and `Update` store what they are given. -/
def absentPlatform : Platform :=
  { getStatefulSet := fun _ _ => (none, some notFoundError),
    listerGet := fun _ _ _ => Except.error notFoundError,
    create := fun _ statefulSet => Except.ok statefulSet,
    update := fun _ statefulSet => UpdateResult.ok statefulSet,
    updateChiObjectStatus := fun _ _ => none,
    deleteHost := fun _ _ => none,
    statefulSetDeletePod := fun _ _ => none,
    overhead := fun _ => 0 }

/-- A platform whose lister fails with a server error. -/
def brokenListerPlatform : Platform :=
  { getStatefulSet := fun _ _ => (none, some notFoundError),
    listerGet := fun _ _ _ => Except.error serverError,
    create := fun _ statefulSet => Except.ok statefulSet,
    update := fun _ statefulSet => UpdateResult.ok statefulSet,
    updateChiObjectStatus := fun _ _ => none,
    deleteHost := fun _ _ => none,
    statefulSetDeletePod := fun _ _ => none,
    overhead := fun _ => 0 }

/-- A platform on which the StatefulSet `converged` is there and stays as it is. -/
def convergedPlatform : Platform :=
  { getStatefulSet := fun _ _ => (some converged, none),
    listerGet := fun _ _ _ => Except.ok converged,
    create := fun _ _ => Except.ok converged,
    update := fun _ _ => UpdateResult.ok converged,
    updateChiObjectStatus := fun _ _ => none,
    deleteHost := fun _ _ => none,
    statefulSetDeletePod := fun _ _ => none,
    overhead := fun _ => 0 }

/-- Timeout 1 s, poll period 0 s, both policies Abort. -/
def zeroPollConfig : Config :=
  { StatefulSetUpdateTimeout := 1, StatefulSetUpdatePollPeriod := 0,
    OnStatefulSetCreateFailureAction := OnStatefulSetCreateFailureActionAbort,
    OnStatefulSetUpdateFailureAction := OnStatefulSetUpdateFailureActionAbort }

/-- Timeout 5 s, poll period 1 s, both policies Abort. -/
def abortConfig : Config :=
  { StatefulSetUpdateTimeout := 5, StatefulSetUpdatePollPeriod := 1,
    OnStatefulSetCreateFailureAction := OnStatefulSetCreateFailureActionAbort,
    OnStatefulSetUpdateFailureAction := OnStatefulSetUpdateFailureActionAbort }

/-- The world before anything has happened. -/
def initialWorld : World := { clock := 0, trace := [] }

/-- Timeout 5 s, poll period 1 s, create policy Delete, update policy Rollback. -/
def remedyConfig : Config :=
  { StatefulSetUpdateTimeout := 5, StatefulSetUpdatePollPeriod := 1,
    OnStatefulSetCreateFailureAction := OnStatefulSetCreateFailureActionDelete,
    OnStatefulSetUpdateFailureAction := OnStatefulSetUpdateFailureActionRollback }

/-- A host of an installation that has seen two additions and three updates. -/
def host0 : ChiHost :=
  { Name := "0-0",
    Chi := { Name := "a", Status := { AddedHostsCount := 2, UpdatedHostsCount := 3 } } }

/-- A platform on which the StatefulSet does not exist yet and is rolled out at once
when created (scenario 1 of the specification). -/
def freshPlatform : Platform :=
  { getStatefulSet := fun _ _ => (none, some notFoundError),
    listerGet := fun _ _ _ => Except.ok converged,
    create := fun _ _ => Except.ok converged,
    update := fun _ _ => UpdateResult.ok converged,
    updateChiObjectStatus := fun _ _ => some serverError,
    deleteHost := fun _ _ => none,
    statefulSetDeletePod := fun _ _ => none,
    overhead := fun _ => 0 }

/-- A platform on which the StatefulSet exists at generation 4, every `Create` or
`Update` yields generation 5, and the status never catches up with generation 5
(scenario 2 of the specification). Deletions fail. -/
def stuckPlatform : Platform :=
  { getStatefulSet := fun _ _ => (some converged, none),
    listerGet := fun _ _ _ => Except.ok lagging,
    create := fun _ _ => Except.ok lagging,
    update := fun _ _ => UpdateResult.ok lagging,
    updateChiObjectStatus := fun _ _ => none,
    deleteHost := fun _ _ => some serverError,
    statefulSetDeletePod := fun _ _ => some serverError,
    overhead := fun _ => 0 }

/-- A platform on which the existence check finds the StatefulSet at generation 4,
but the object is gone by the time `Update` is called: `Update` answers not-found.
A `Create` then succeeds and is rolled out at once. -/
def vanishingPlatform : Platform :=
  { getStatefulSet := fun _ _ => (some converged, none),
    listerGet := fun _ _ _ => Except.ok converged,
    create := fun _ _ => Except.ok converged,
    update := fun _ _ => UpdateResult.fail none notFoundError,
    updateChiObjectStatus := fun _ _ => none,
    deleteHost := fun _ _ => none,
    statefulSetDeletePod := fun _ _ => none,
    overhead := fun _ => 0 }

/-- Timeout 5 s, poll period 1 s, and two policy values that are none of the known
ones (a capitalised "Delete" and a misspelt "rolback"). -/
def typoConfig : Config :=
  { StatefulSetUpdateTimeout := 5, StatefulSetUpdatePollPeriod := 1,
    OnStatefulSetCreateFailureAction := "Delete",
    OnStatefulSetUpdateFailureAction := "rolback" }

/-! ## ReconcileService -/

/-- Go `core.ServiceSpec`: the cluster IP, and `Type_` (Go `Type`) and `Ports` standing for the
fields the code leaves alone. -/
structure ServiceSpec where
  ClusterIP : String
  Type_ : String
  Ports : List Int
deriving DecidableEq, Repr

/-- Go `core.Service` (`ObjectMeta` is embedded); `Status` stands for the status
block, which the code leaves alone. -/
structure Service extends ObjectMeta where
  Spec : ServiceSpec
  Status : String
deriving DecidableEq, Repr

/-- One interaction of `ReconcileService` with its surroundings. -/
inductive ServiceCall where
  | getService (objMeta : ObjectMeta)
  | update (service : Service)
  | create (service : Service)
deriving DecidableEq, Repr

/-- The surroundings of `ReconcileService`; the first argument of each field is the
number of calls made before this one. `update` and `create` are
`kubeClient.CoreV1().Services(ns).Update` / `.Create`, which return an object
pointer and an error.

Modelled from the spec: `getService` is a method of the controller defined outside
`creator.go`; it is taken as a platform call ("fetches by name") that returns an
object pointer and an error. -/
structure ServicePlatform where
  getService : Nat → ObjectMeta → Option Service × Option Error
  update : Nat → Service → Option Service × Option Error
  create : Nat → Service → Option Service × Option Error

/-- What a call of `ReconcileService` leaves behind: the returned error, the
caller's service object (passed by pointer, so assignments to its fields are seen
by the caller) and the calls made. -/
structure ServiceOutcome where
  err : Option Error
  service : Service
  trace : List ServiceCall
deriving DecidableEq, Repr

/-- Lines 88-93, shared by the two ways out of `ReconcileService`:
`if err != nil { return err }; return nil`. -/
def returnErr (err : Option Error) : Option Error :=
  match err with
  | some e => some e
  | none => none

/-- Go `ReconcileService` (creator.go 60-94). -/
def ReconcileService (p : ServicePlatform) (service : Service) (trace : List ServiceCall) :
    ServiceOutcome :=
  let fetched := p.getService trace.length service.toObjectMeta
  let trace1 := trace ++ [ServiceCall.getService service.toObjectMeta]
  match fetched.1 with
  | some curService =>
    let service1 : Service :=
      { Namespace := service.Namespace, Name := service.Name,
        Generation := service.Generation,
        ResourceVersion := curService.ResourceVersion,
        Spec := service.Spec, Status := service.Status }
    let service2 : Service :=
      { toObjectMeta := service1.toObjectMeta,
        Spec := { ClusterIP := curService.Spec.ClusterIP, Type_ := service1.Spec.Type_,
                  Ports := service1.Spec.Ports },
        Status := service1.Status }
    let answer := p.update trace1.length service2
    { err := returnErr answer.2, service := service2,
      trace := trace1 ++ [ServiceCall.update service2] }
  | none =>
    if IsNotFound fetched.2 then
      let answer := p.create trace1.length service
      { err := returnErr answer.2, service := service,
        trace := trace1 ++ [ServiceCall.create service] }
    else
      { err := returnErr fetched.2, service := service, trace := trace1 }

/-- The service the caller wants: no cluster IP chosen, no resource version. -/
def desiredService : Service :=
  { Namespace := "ns", Name := "chi-a", Generation := 0, ResourceVersion := "",
    Spec := { ClusterIP := "", Type_ := "ClusterIP", Ports := [8123, 9000] },
    Status := "" }

/-- The service as it lives on the platform: an assigned cluster IP, a resource
version, and one port only. -/
def liveService : Service :=
  { Namespace := "ns", Name := "chi-a", Generation := 1, ResourceVersion := "4711",
    Spec := { ClusterIP := "10.0.0.7", Type_ := "ClusterIP", Ports := [8123] },
    Status := "ready" }

/-- A platform on which the service exists and `Update` is rejected. -/
def liveServicePlatform : ServicePlatform :=
  { getService := fun _ _ => (some liveService, none),
    update := fun _ _ => (none, some serverError),
    create := fun _ service => (some service, none) }

/-- A platform on which the service does not exist and `Create` succeeds. -/
def noServicePlatform : ServicePlatform :=
  { getService := fun _ _ => (none, some notFoundError),
    update := fun _ service => (some service, none),
    create := fun _ service => (some service, none) }

/-- A platform on which the fetch of the service fails with a server error. -/
def brokenServicePlatform : ServicePlatform :=
  { getService := fun _ _ => (none, some serverError),
    update := fun _ service => (some service, none),
    create := fun _ service => (some service, none) }

/-- The elapsed time `time.Since(start)` that a waiter entered in world `w` reads at
the timeout test (line 194) of round `i`, counted from 0, when every fetch so far
has left it waiting: `i` sleeps of the poll period and `2 * i + 1` calls lie between
`start := time.Now()` and that test. -/
def elapsedAtRound (p : Platform) (cfg : Config) (w : World) (i : Nat) : Int :=
  Since (wallClock p w)
    (w.clock + i * max (secondsDuration cfg.StatefulSetUpdatePollPeriod) 0 +
      p.overhead (w.trace.length + 2 * i + 1))

/-- A platform on which the StatefulSet is never there and every call, a sleep of
zero length included, takes 0.3 s of wall-clock time. -/
def busyPlatform : Platform :=
  { getStatefulSet := fun _ _ => (none, some notFoundError),
    listerGet := fun _ _ _ => Except.error notFoundError,
    create := fun _ statefulSet => Except.ok statefulSet,
    update := fun _ statefulSet => UpdateResult.ok statefulSet,
    updateChiObjectStatus := fun _ _ => none,
    deleteHost := fun _ _ => none,
    statefulSetDeletePod := fun _ _ => none,
    overhead := fun n => 300000000 * n }

/-! ## Theorems -/

/-- C1 (refuted as stated): `lagging` has `Status.ObservedGeneration = 4`, all
three replica counters equal to `*Spec.Replicas` and equal revisions, yet
`hasStatefulSetReachedGeneration lagging 4` is `false`, because its own
`Generation` is 5. -/
theorem C1_counterexample :
    lagging.Spec.Replicas = some 1 ∧
    (lagging.Status.ObservedGeneration = 4 ∧ lagging.Status.ReadyReplicas = 1 ∧
      lagging.Status.CurrentReplicas = 1 ∧ lagging.Status.UpdatedReplicas = 1 ∧
      lagging.Status.CurrentRevision = lagging.Status.UpdateRevision) ∧
    hasStatefulSetReachedGeneration (some lagging) 4 = some false := by
  refine ⟨rfl, ⟨rfl, rfl, rfl, rfl, rfl⟩, ?_⟩
  decide

/-- C1 (amended): for a non-nil StatefulSet whose `Spec.Replicas` is set to
`replicas`, `hasStatefulSetReachedGeneration` returns (no panic), and it returns
true exactly when the object's own `Generation` is the target, the observed
generation is the target, the ready, current and updated replica counts all equal
`replicas`, and the current revision is the update revision. -/
theorem C1_hasStatefulSetReachedGeneration_iff (ss : StatefulSet) (replicas generation : Int)
    (hrep : ss.Spec.Replicas = some replicas) :
    (∃ b, hasStatefulSetReachedGeneration (some ss) generation = some b) ∧
    (hasStatefulSetReachedGeneration (some ss) generation = some true ↔
      ss.Generation = generation ∧ ss.Status.ObservedGeneration = generation ∧
      ss.Status.ReadyReplicas = replicas ∧ ss.Status.CurrentReplicas = replicas ∧
      ss.Status.UpdatedReplicas = replicas ∧
      ss.Status.CurrentRevision = ss.Status.UpdateRevision) := by
  unfold hasStatefulSetReachedGeneration
  simp only [hrep]
  by_cases hg : ss.Generation = generation
  · by_cases ho : ss.Status.ObservedGeneration = ss.Generation
    · have ho' : ss.Status.ObservedGeneration = generation := ho.trans hg
      simp [hg, ho']
    · have ho' : ¬ ss.Status.ObservedGeneration = generation := fun h => ho (h.trans hg.symm)
      simp [hg, ho']
  · simp [hg]

/-- C1 witness: the amended statement at the converged StatefulSet. -/
theorem C1_hasStatefulSetReachedGeneration_iff_witness :
    converged.Spec.Replicas = some 1 ∧
    ((∃ b, hasStatefulSetReachedGeneration (some converged) 4 = some b) ∧
    (hasStatefulSetReachedGeneration (some converged) 4 = some true ↔
      converged.Generation = 4 ∧ converged.Status.ObservedGeneration = 4 ∧
      converged.Status.ReadyReplicas = 1 ∧ converged.Status.CurrentReplicas = 1 ∧
      converged.Status.UpdatedReplicas = 1 ∧
      converged.Status.CurrentRevision = converged.Status.UpdateRevision)) :=
  ⟨rfl, C1_hasStatefulSetReachedGeneration_iff converged 1 4 rfl⟩

/-! ### Lemmas on time -/

theorem wrapInt64_le_maxDuration (x : Int) : wrapInt64 x ≤ maxDuration := by
  unfold wrapInt64 maxDuration
  have h := Int.emod_lt_of_pos (x + 2 ^ 63) (show (0 : Int) < 2 ^ 64 by norm_num)
  omega

theorem minDuration_le_wrapInt64 (x : Int) : minDuration ≤ wrapInt64 x := by
  unfold wrapInt64 minDuration
  have h := Int.emod_nonneg (x + 2 ^ 63) (show (2 : Int) ^ 64 ≠ 0 by norm_num)
  omega

theorem le_Since_iff (start now t : Int) (hnow : start ≤ now) (ht : t ≤ maxDuration) :
    t ≤ Since start now ↔ t ≤ now - start := by
  unfold Since
  unfold maxDuration at ht
  unfold maxDuration minDuration
  omega

theorem secondsDuration_le_maxDuration (n : Int) : secondsDuration n ≤ maxDuration :=
  wrapInt64_le_maxDuration _

/-! ### Lemmas on the waiter -/

theorem World.record_clock (w : World) (c : Call) : (w.record c).clock = w.clock := rfl

theorem World.record_trace (w : World) (c : Call) : (w.record c).trace = w.trace ++ [c] := rfl

theorem World.sleep_clock (w : World) (d : Int) : (w.sleep d).clock = w.clock + max d 0 := rfl

theorem World.sleep_trace (w : World) (d : Int) :
    (w.sleep d).trace = w.trace ++ [Call.sleep d] := rfl

theorem waitIteration_of_pending (p : Platform) (cfg : Config) (namespace_ name : String)
    (targetGeneration start : Int) (w : World)
    (h : stillPending targetGeneration (p.listerGet w.trace.length namespace_ name) = true) :
    waitIteration p cfg namespace_ name targetGeneration start w =
      waitMore p cfg namespace_ name start (w.record (Call.listerGet namespace_ name)) := by
  unfold waitIteration
  cases hr : p.listerGet w.trace.length namespace_ name with
  | ok statefulSet =>
    rw [hr] at h
    simp only [stillPending, decide_eq_true_eq] at h
    simp [h]
  | error err =>
    rw [hr] at h
    simp only [stillPending] at h
    simp [h]

theorem waitLoop_of_pending (p : Platform) (cfg : Config) (namespace_ name : String)
    (targetGeneration start : Int)
    (hpend : ∀ t, stillPending targetGeneration (p.listerGet t namespace_ name) = true) :
    ∀ (n : Nat) (w : World) (fuel : Nat),
      secondsDuration cfg.StatefulSetUpdateTimeout ≤
        Since start (w.clock + n * max (secondsDuration cfg.StatefulSetUpdatePollPeriod) 0 +
          p.overhead (w.trace.length + 2 * n + 1)) →
      (∀ i : Nat, i < n →
        Since start (w.clock + i * max (secondsDuration cfg.StatefulSetUpdatePollPeriod) 0 +
          p.overhead (w.trace.length + 2 * i + 1)) <
            secondsDuration cfg.StatefulSetUpdateTimeout) →
      n < fuel →
      waitLoop p cfg namespace_ name targetGeneration start fuel w =
        Run.done (some (waitTimeoutError namespace_ name))
          { clock := w.clock + n * max (secondsDuration cfg.StatefulSetUpdatePollPeriod) 0,
            trace := w.trace ++
              pollCalls namespace_ name (secondsDuration cfg.StatefulSetUpdatePollPeriod) n ++
              [Call.listerGet namespace_ name] } := by
  intro n
  induction n with
  | zero =>
    intro w fuel hge _ hfuel
    obtain ⟨fuel, rfl⟩ : ∃ k, fuel = k + 1 := ⟨fuel - 1, by omega⟩
    have hexit : secondsDuration cfg.StatefulSetUpdateTimeout ≤
        Since start (wallClock p (w.record (Call.listerGet namespace_ name))) := by
      simpa [wallClock, World.record] using hge
    simp only [waitLoop, waitIteration_of_pending p cfg namespace_ name targetGeneration start w
      (hpend _), waitMore, ge_iff_le, hexit, if_true]
    simp [pollCalls, World.record]
  | succ n ih =>
    intro w fuel hge hlt hfuel
    obtain ⟨fuel, rfl⟩ : ∃ k, fuel = k + 1 := ⟨fuel - 1, by omega⟩
    have h0 := hlt 0 (Nat.succ_pos n)
    have hstay : ¬ secondsDuration cfg.StatefulSetUpdateTimeout ≤
        Since start (wallClock p (w.record (Call.listerGet namespace_ name))) := by
      simpa [wallClock, World.record] using h0
    have hclock : ∀ i : Nat,
        ((w.record (Call.listerGet namespace_ name)).sleep
            (secondsDuration cfg.StatefulSetUpdatePollPeriod)).clock +
          (i : Int) * max (secondsDuration cfg.StatefulSetUpdatePollPeriod) 0 +
          p.overhead (((w.record (Call.listerGet namespace_ name)).sleep
            (secondsDuration cfg.StatefulSetUpdatePollPeriod)).trace.length + 2 * i + 1) =
        w.clock + ((i + 1 : Nat) : Int) *
            max (secondsDuration cfg.StatefulSetUpdatePollPeriod) 0 +
          p.overhead (w.trace.length + 2 * (i + 1) + 1) := by
      intro i
      have hlen : ((w.record (Call.listerGet namespace_ name)).sleep
          (secondsDuration cfg.StatefulSetUpdatePollPeriod)).trace.length + 2 * i + 1 =
          w.trace.length + 2 * (i + 1) + 1 := by
        simp [World.sleep, World.record]
        omega
      rw [hlen]
      simp only [World.sleep, World.record]
      push_cast
      ring
    have hnext := ih
      ((w.record (Call.listerGet namespace_ name)).sleep
        (secondsDuration cfg.StatefulSetUpdatePollPeriod)) fuel
      (by rw [hclock n]; exact hge)
      (by intro i hi; rw [hclock i]; exact hlt (i + 1) (by omega))
      (by omega)
    simp only [waitLoop, waitIteration_of_pending p cfg namespace_ name targetGeneration start w
      (hpend _), waitMore, ge_iff_le, hstay, if_false]
    rw [hnext]
    simp only [World.sleep, World.record, pollCalls, List.append_assoc, List.cons_append,
      List.nil_append, List.singleton_append]
    congr 2
    push_cast
    ring

/-! ### The waiter: claims C2, C3, C4 -/

/-- C2: in an iteration of `waitStatefulSetGeneration` that starts in world `w`
(any iteration: `start` and `w` are arbitrary),
(1) the iteration leaves the function with the error of its fetch if and only if
the fetch failed with an error that is not a not-found error;
(2) in that case the waiter returns that very error, and the world it returns in is
`w` plus the one fetch: no further fetch, no sleep, no time slept;
(3) after a not-found fetch the iteration either returns the wait-timeout error,
which is not the fetch error, or sleeps for the poll period and the loop goes round
again; it never returns the not-found error. -/
theorem C2_waiter_fetch_errors (p : Platform) (cfg : Config) (namespace_ name : String)
    (targetGeneration start : Int) (w : World) (fuel : Nat) :
    ((∃ err w1, p.listerGet w.trace.length namespace_ name = Except.error err ∧
        waitIteration p cfg namespace_ name targetGeneration start w =
          Iteration.exit (some err) w1) ↔
      (∃ err, p.listerGet w.trace.length namespace_ name = Except.error err ∧
        IsNotFound (some err) = false)) ∧
    (∀ err, p.listerGet w.trace.length namespace_ name = Except.error err →
      IsNotFound (some err) = false →
      waitLoop p cfg namespace_ name targetGeneration start (fuel + 1) w =
        Run.done (some err) { clock := w.clock,
                              trace := w.trace ++ [Call.listerGet namespace_ name] }) ∧
    (∀ err, p.listerGet w.trace.length namespace_ name = Except.error err →
      IsNotFound (some err) = true →
      waitTimeoutError namespace_ name ≠ err ∧
      (∀ w1, waitIteration p cfg namespace_ name targetGeneration start w ≠
        Iteration.exit (some err) w1) ∧
      ((waitLoop p cfg namespace_ name targetGeneration start (fuel + 1) w =
          Run.done (some (waitTimeoutError namespace_ name))
            { clock := w.clock, trace := w.trace ++ [Call.listerGet namespace_ name] }) ∨
        (waitLoop p cfg namespace_ name targetGeneration start (fuel + 1) w =
          waitLoop p cfg namespace_ name targetGeneration start fuel
            { clock := w.clock + max (secondsDuration cfg.StatefulSetUpdatePollPeriod) 0,
              trace := w.trace ++ [Call.listerGet namespace_ name,
                Call.sleep (secondsDuration cfg.StatefulSetUpdatePollPeriod)] }))) := by
  refine ⟨⟨?_, ?_⟩, ?_, ?_⟩
  · rintro ⟨err, w1, hfetch, hexit⟩
    refine ⟨err, hfetch, ?_⟩
    cases hnf : IsNotFound (some err) with
    | false => rfl
    | true =>
      exfalso
      have herr : ∃ msg, err = Error.api true msg := by
        cases err with
        | api nf msg => exact ⟨msg, by simp [IsNotFound] at hnf; rw [hnf]⟩
        | errorString msg => simp [IsNotFound] at hnf
      obtain ⟨msg, rfl⟩ := herr
      simp only [waitIteration, hfetch, hnf, if_true, waitMore] at hexit
      split at hexit
      · simp [waitTimeoutError] at hexit
      · simp at hexit
  · rintro ⟨err, hfetch, hnf⟩
    exact ⟨err, w.record (Call.listerGet namespace_ name), hfetch, by
      simp [waitIteration, hfetch, hnf]⟩
  · intro err hfetch hnf
    simp [waitLoop, waitIteration, hfetch, hnf, World.record]
  · intro err hfetch hnf
    have herr : ∃ msg, err = Error.api true msg := by
      cases err with
      | api nf msg => exact ⟨msg, by simp [IsNotFound] at hnf; rw [hnf]⟩
      | errorString msg => simp [IsNotFound] at hnf
    obtain ⟨msg, rfl⟩ := herr
    refine ⟨by simp [waitTimeoutError], ?_, ?_⟩
    · intro w1 hexit
      simp only [waitIteration, hfetch, hnf, if_true, waitMore] at hexit
      split at hexit
      · simp [waitTimeoutError] at hexit
      · simp at hexit
    · by_cases hto : secondsDuration cfg.StatefulSetUpdateTimeout ≤
          Since start (wallClock p (w.record (Call.listerGet namespace_ name)))
      · left
        simp only [waitLoop, waitIteration, hfetch, hnf, if_true, waitMore, ge_iff_le, hto]
        simp [World.record]
      · right
        simp only [waitLoop, waitIteration, hfetch, hnf, if_true, waitMore, ge_iff_le, hto,
          if_false]
        simp [World.record, World.sleep]

/-- C2 witness: on a platform whose lister fails with a server error, the first
iteration returns that error after one fetch; on a platform whose lister reports
not-found, the first iteration does not return the not-found error. -/
theorem C2_waiter_fetch_errors_witness :
    waitLoop brokenListerPlatform abortConfig "ns" "chi-a-0-0" 1 0 (0 + 1) initialWorld =
      Run.done (some serverError)
        { clock := initialWorld.clock,
          trace := initialWorld.trace ++ [Call.listerGet "ns" "chi-a-0-0"] } ∧
    waitTimeoutError "ns" "chi-a-0-0" ≠ notFoundError :=
  ⟨(C2_waiter_fetch_errors brokenListerPlatform abortConfig "ns" "chi-a-0-0" 1 0
      initialWorld 0).2.1 serverError rfl rfl,
   ((C2_waiter_fetch_errors absentPlatform abortConfig "ns" "chi-a-0-0" 1 0
      initialWorld 0).2.2 notFoundError rfl rfl).1⟩

/-- C3: when every fetch leaves the waiter waiting (a not-found error, or an object
on which `hasStatefulSetReachedGeneration` is false), the waiter does not loop
forever. The wall clock is explicit: each sleep advances it by the poll period (by
nothing when that duration is not positive) and the platform's `overhead`, which
never decreases, accounts for the rest. Provided time passes, which it does when
the poll period is a positive duration, or the timeout is not positive, or the
platform's clock grows without bound, there is a round `n` such that the elapsed
time read by the code is at least `time.Duration(StatefulSetUpdateTimeout) *
time.Second` in round `n` and below it in every earlier round, and with any fuel
above `n` the waiter returns the wait-timeout error after exactly `n + 1` fetches
and `n` sleeps. This covers every timeout and every poll period. -/
theorem C3_waiter_times_out (p : Platform) (cfg : Config) (namespace_ name : String)
    (targetGeneration : Int) (w : World)
    (hpend : ∀ t, stillPending targetGeneration (p.listerGet t namespace_ name) = true)
    (hmono : ∀ a b : Nat, a ≤ b → p.overhead a ≤ p.overhead b)
    (hprogress : 0 < secondsDuration cfg.StatefulSetUpdatePollPeriod ∨
      secondsDuration cfg.StatefulSetUpdateTimeout ≤ 0 ∨
      ∀ bound : Int, ∃ n : Nat, bound ≤ p.overhead n) :
    ∃ n : Nat,
      secondsDuration cfg.StatefulSetUpdateTimeout ≤ elapsedAtRound p cfg w n ∧
      (∀ i : Nat, i < n →
        elapsedAtRound p cfg w i < secondsDuration cfg.StatefulSetUpdateTimeout) ∧
      ∀ fuel, n < fuel →
        waitStatefulSetGeneration p cfg fuel namespace_ name targetGeneration w =
          Run.done (some (waitTimeoutError namespace_ name))
            { clock := w.clock +
                n * max (secondsDuration cfg.StatefulSetUpdatePollPeriod) 0,
              trace := w.trace ++
                pollCalls namespace_ name (secondsDuration cfg.StatefulSetUpdatePollPeriod) n ++
                [Call.listerGet namespace_ name] } := by
  have hT := secondsDuration_le_maxDuration cfg.StatefulSetUpdateTimeout
  have hM : (0 : Int) ≤ max (secondsDuration cfg.StatefulSetUpdatePollPeriod) 0 :=
    le_max_right _ _
  have hover : ∀ i : Nat, p.overhead w.trace.length ≤ p.overhead (w.trace.length + 2 * i + 1) :=
    fun i => hmono _ _ (by omega)
  have hiM : ∀ i : Nat,
      (0 : Int) ≤ (i : Int) * max (secondsDuration cfg.StatefulSetUpdatePollPeriod) 0 :=
    fun i => mul_nonneg (Int.ofNat_nonneg i) hM
  have helapsed : ∀ i : Nat,
      (secondsDuration cfg.StatefulSetUpdateTimeout ≤ elapsedAtRound p cfg w i ↔
        secondsDuration cfg.StatefulSetUpdateTimeout ≤
          (i : Int) * max (secondsDuration cfg.StatefulSetUpdatePollPeriod) 0 +
            (p.overhead (w.trace.length + 2 * i + 1) - p.overhead w.trace.length)) := by
    intro i
    have h1 := hover i
    have h2 := hiM i
    unfold elapsedAtRound
    rw [le_Since_iff _ _ _ (by unfold wallClock; omega) hT]
    unfold wallClock
    constructor <;> intro h <;> omega
  have hex : ∃ n : Nat,
      secondsDuration cfg.StatefulSetUpdateTimeout ≤ elapsedAtRound p cfg w n := by
    rcases hprogress with hpos | hneg | hunbounded
    · refine ⟨(secondsDuration cfg.StatefulSetUpdateTimeout).toNat, ?_⟩
      rw [helapsed]
      have h1 : secondsDuration cfg.StatefulSetUpdateTimeout ≤
          ((secondsDuration cfg.StatefulSetUpdateTimeout).toNat : Int) := Int.self_le_toNat _
      have h2 : (0 : Int) ≤ ((secondsDuration cfg.StatefulSetUpdateTimeout).toNat : Int) :=
        Int.ofNat_nonneg _
      have h3 := hover (secondsDuration cfg.StatefulSetUpdateTimeout).toNat
      rw [max_eq_left (le_of_lt hpos)]
      nlinarith
    · refine ⟨0, ?_⟩
      rw [helapsed]
      have h3 := hover 0
      simp only [Nat.cast_zero, zero_mul, zero_add]
      omega
    · obtain ⟨m, hm⟩ := hunbounded
        (secondsDuration cfg.StatefulSetUpdateTimeout + p.overhead w.trace.length)
      refine ⟨m, ?_⟩
      rw [helapsed]
      have h3 : p.overhead m ≤ p.overhead (w.trace.length + 2 * m + 1) :=
        hmono _ _ (by omega)
      have h4 := hiM m
      omega
  refine ⟨Nat.find hex, Nat.find_spec hex, ?_, ?_⟩
  · intro i hi
    exact not_le.mp (Nat.find_min hex hi)
  · intro fuel hfuel
    exact waitLoop_of_pending p cfg namespace_ name targetGeneration (wallClock p w) hpend
      (Nat.find hex) w fuel (Nat.find_spec hex)
      (fun i hi => not_le.mp (Nat.find_min hex hi)) hfuel

/-- C3 witness: timeout 1 s and poll period 0 s on a platform whose clock advances
by 0.3 s with every call: the hypotheses hold and the waiter returns. -/
theorem C3_waiter_times_out_witness :
    (∀ t, stillPending 1 (busyPlatform.listerGet t "ns" "chi-a-0-0") = true) ∧
    (∀ a b : Nat, a ≤ b → busyPlatform.overhead a ≤ busyPlatform.overhead b) ∧
    (∀ bound : Int, ∃ n : Nat, bound ≤ busyPlatform.overhead n) ∧
    ∃ n : Nat,
      secondsDuration zeroPollConfig.StatefulSetUpdateTimeout ≤
        elapsedAtRound busyPlatform zeroPollConfig initialWorld n ∧
      (∀ i : Nat, i < n →
        elapsedAtRound busyPlatform zeroPollConfig initialWorld i <
          secondsDuration zeroPollConfig.StatefulSetUpdateTimeout) ∧
      ∀ fuel, n < fuel →
        waitStatefulSetGeneration busyPlatform zeroPollConfig fuel "ns" "chi-a-0-0" 1
            initialWorld =
          Run.done (some (waitTimeoutError "ns" "chi-a-0-0"))
            { clock := initialWorld.clock +
                n * max (secondsDuration zeroPollConfig.StatefulSetUpdatePollPeriod) 0,
              trace := initialWorld.trace ++
                pollCalls "ns" "chi-a-0-0"
                  (secondsDuration zeroPollConfig.StatefulSetUpdatePollPeriod) n ++
                [Call.listerGet "ns" "chi-a-0-0"] } :=
  have hmono : ∀ a b : Nat, a ≤ b → busyPlatform.overhead a ≤ busyPlatform.overhead b := by
    intro a b hab
    simp only [busyPlatform]
    omega
  have hunbounded : ∀ bound : Int, ∃ n : Nat, bound ≤ busyPlatform.overhead n := by
    intro bound
    refine ⟨bound.toNat, ?_⟩
    simp only [busyPlatform]
    omega
  ⟨fun _ => rfl, hmono, hunbounded,
    C3_waiter_times_out busyPlatform zeroPollConfig "ns" "chi-a-0-0" 1 initialWorld
      (fun _ => rfl) hmono (Or.inr (Or.inr hunbounded))⟩

/-- The run of timeout 1 s and poll period 0 s on the platform whose calls take
0.3 s each, evaluated: the clock reads 0.3 s, 0.9 s and 1.5 s at the three timeout
tests, so the waiter returns the wait-timeout error after three fetches and two
sleeps of zero length. -/
theorem waitStatefulSetGeneration_zero_poll :
    waitStatefulSetGeneration busyPlatform zeroPollConfig 3 "ns" "chi-a-0-0" 1 initialWorld =
      Run.done (some (waitTimeoutError "ns" "chi-a-0-0"))
        { clock := 0,
          trace := pollCalls "ns" "chi-a-0-0" 0 2 ++ [Call.listerGet "ns" "chi-a-0-0"] } ∧
    waitStatefulSetGeneration busyPlatform zeroPollConfig 2 "ns" "chi-a-0-0" 1 initialWorld =
      Run.outOfFuel := by
  decide

/-- The run behind scenario 2 of the specification, evaluated: timeout 5 s, poll
period 1 s, a StatefulSet that never appears; six fetches, five sleeps, then the
wait-timeout error at clock 5 s. -/
theorem waitStatefulSetGeneration_five_seconds :
    waitStatefulSetGeneration absentPlatform abortConfig 6 "ns" "chi-a-0-0" 1 initialWorld =
      Run.done (some (waitTimeoutError "ns" "chi-a-0-0"))
        { clock := 5000000000,
          trace := pollCalls "ns" "chi-a-0-0" 1000000000 5 ++
            [Call.listerGet "ns" "chi-a-0-0"] } := by
  decide

/-- C4: when the first fetch returns a resource on which
`hasStatefulSetReachedGeneration` is true for the target generation, the waiter
returns `nil`, in the world it started in plus exactly one fetch (no sleep, no
time slept), for every configuration (timeout and poll period are arbitrary) and
any fuel of at least one; calling it again, the resource being unchanged, gives
`nil` again after one more fetch and no sleep. -/
theorem C4_waiter_converged_first_fetch (p : Platform) (cfg : Config) (namespace_ name : String)
    (targetGeneration : Int) (statefulSet : StatefulSet) (w : World) (fuel fuel1 : Nat)
    (hfetch : p.listerGet w.trace.length namespace_ name = Except.ok statefulSet)
    (hagain : p.listerGet (w.trace.length + 1) namespace_ name = Except.ok statefulSet)
    (hreached : hasStatefulSetReachedGeneration (some statefulSet) targetGeneration = some true) :
    waitStatefulSetGeneration p cfg (fuel + 1) namespace_ name targetGeneration w =
      Run.done none { clock := w.clock, trace := w.trace ++ [Call.listerGet namespace_ name] } ∧
    waitStatefulSetGeneration p cfg (fuel1 + 1) namespace_ name targetGeneration
        { clock := w.clock, trace := w.trace ++ [Call.listerGet namespace_ name] } =
      Run.done none
        { clock := w.clock,
          trace := w.trace ++ [Call.listerGet namespace_ name] ++
            [Call.listerGet namespace_ name] } := by
  constructor
  · simp [waitStatefulSetGeneration, waitLoop, waitIteration, hfetch, hreached, World.record]
  · simp [waitStatefulSetGeneration, waitLoop, waitIteration, hagain, hreached, World.record]

/-- C4 witness: the converged StatefulSet, timeout 1 s and poll period 0 s. -/
theorem C4_waiter_converged_first_fetch_witness :
    waitStatefulSetGeneration convergedPlatform zeroPollConfig (0 + 1) "ns" "chi-a-0-0" 4
        initialWorld =
      Run.done none { clock := initialWorld.clock,
                      trace := initialWorld.trace ++ [Call.listerGet "ns" "chi-a-0-0"] } ∧
    waitStatefulSetGeneration convergedPlatform zeroPollConfig (0 + 1) "ns" "chi-a-0-0" 4
        { clock := initialWorld.clock,
          trace := initialWorld.trace ++ [Call.listerGet "ns" "chi-a-0-0"] } =
      Run.done none
        { clock := initialWorld.clock,
          trace := initialWorld.trace ++ [Call.listerGet "ns" "chi-a-0-0"] ++
            [Call.listerGet "ns" "chi-a-0-0"] } :=
  C4_waiter_converged_first_fetch convergedPlatform zeroPollConfig "ns" "chi-a-0-0" 4 converged
    initialWorld 0 0 rfl rfl (by decide)

/-! ### The update and create paths: claims C5 to C10 -/

/-- C5: when the platform `Update` succeeds and the object it returns has the
generation of `oldStatefulSet`, `updateStatefulSet` returns `nil` in the world it
started in plus exactly one call, the `Update` of `newStatefulSet`: no lister fetch,
no sleep (no time is slept), no call of the update-failure policy; this holds
with any fuel, zero included, since the waiter is not entered. -/
theorem C5_update_same_generation (p : Platform) (cfg : Config) (fuel : Nat)
    (oldStatefulSet newStatefulSet updatedStatefulSet : StatefulSet) (w : World)
    (hupdate : p.update w.trace.length newStatefulSet = UpdateResult.ok updatedStatefulSet)
    (hgen : updatedStatefulSet.Generation = oldStatefulSet.Generation) :
    updateStatefulSet p cfg fuel oldStatefulSet newStatefulSet w =
      Run.done none { clock := w.clock, trace := w.trace ++ [Call.update newStatefulSet] } := by
  simp [updateStatefulSet, hupdate, hgen, World.record]

/-- C5 witness: an update that comes back with the old generation 4. -/
theorem C5_update_same_generation_witness :
    updateStatefulSet convergedPlatform remedyConfig 0 converged lagging initialWorld =
      Run.done none { clock := initialWorld.clock,
                      trace := initialWorld.trace ++ [Call.update lagging] } :=
  C5_update_same_generation convergedPlatform remedyConfig 0 converged lagging converged
    initialWorld rfl rfl

/-- C6: when the existence check of `ReconcileStatefulSet` answers no object and a
not-found error, the call is the create path followed by the increment of
`AddedHostsCount` and the persist call, whose answer is not looked at; so whenever
`createStatefulSet` returns, with whatever error value, `ReconcileStatefulSet`
returns that same value, with `AddedHostsCount` one higher than before and
`UpdatedHostsCount` as before, and no `Update` path is run. -/
theorem C6_reconcile_create_path (p : Platform) (cfg : Config) (fuel : Nat)
    (newStatefulSet : StatefulSet) (host : ChiHost) (w : World) (notFound : Error)
    (hfetch : p.getStatefulSet w.trace.length newStatefulSet.toObjectMeta =
      (none, some notFound))
    (hnf : IsNotFound (some notFound) = true) :
    ReconcileStatefulSet p cfg fuel newStatefulSet host w =
      Run.andThen
        (createStatefulSet p cfg fuel newStatefulSet host
          (w.record (Call.getStatefulSet newStatefulSet.toObjectMeta)))
        (fun err w1 => Run.done (err, host.incAddedHostsCount)
          (w1.record (Call.updateChiObjectStatus host.incAddedHostsCount.Chi))) ∧
    ∀ err w1,
      createStatefulSet p cfg fuel newStatefulSet host
          (w.record (Call.getStatefulSet newStatefulSet.toObjectMeta)) = Run.done err w1 →
      ∃ host1,
        ReconcileStatefulSet p cfg fuel newStatefulSet host w =
          Run.done (err, host1)
            { clock := w1.clock,
              trace := w1.trace ++ [Call.updateChiObjectStatus host1.Chi] } ∧
        host1.Chi.Status.AddedHostsCount = host.Chi.Status.AddedHostsCount + 1 ∧
        host1.Chi.Status.UpdatedHostsCount = host.Chi.Status.UpdatedHostsCount := by
  have heq : ReconcileStatefulSet p cfg fuel newStatefulSet host w =
      Run.andThen
        (createStatefulSet p cfg fuel newStatefulSet host
          (w.record (Call.getStatefulSet newStatefulSet.toObjectMeta)))
        (fun err w1 => Run.done (err, host.incAddedHostsCount)
          (w1.record (Call.updateChiObjectStatus host.incAddedHostsCount.Chi))) := by
    simp [ReconcileStatefulSet, reconcileUpdateBlock, reconcileCreateBlock, hfetch, hnf,
      Run.andThen]
  refine ⟨heq, ?_⟩
  intro err w1 hcreate
  refine ⟨host.incAddedHostsCount, ?_, rfl, rfl⟩
  rw [heq, hcreate]
  rfl

/-- C6 witness: scenario 1 of the specification, with a persist call that fails:
the StatefulSet is absent, is created and is ready at once; no error, and
`AddedHostsCount` goes from 2 to 3. -/
theorem C6_reconcile_create_path_witness :
    ∃ host1,
      ReconcileStatefulSet freshPlatform abortConfig 1 converged host0 initialWorld =
        Run.done (none, host1)
          { clock := 0,
            trace := [Call.getStatefulSet converged.toObjectMeta, Call.create converged,
              Call.listerGet "ns" "chi-a-0-0"] ++ [Call.updateChiObjectStatus host1.Chi] } ∧
      host1.Chi.Status.AddedHostsCount = host0.Chi.Status.AddedHostsCount + 1 ∧
      host1.Chi.Status.UpdatedHostsCount = host0.Chi.Status.UpdatedHostsCount :=
  (C6_reconcile_create_path freshPlatform abortConfig 1 converged host0 initialWorld
    notFoundError rfl rfl).2 none
    { clock := 0,
      trace := [Call.getStatefulSet converged.toObjectMeta, Call.create converged,
        Call.listerGet "ns" "chi-a-0-0"] } (by decide)

/-- C7 (the code at the failing input): the existence check finds the StatefulSet,
`Update` answers not-found, and `ReconcileStatefulSet` goes on into the create
path: the trace shows the `Create` after the `Update`, and the host comes back
with `UpdatedHostsCount` 4 and `AddedHostsCount` 3, both one higher than before. -/
theorem C7_update_not_found_runs_create :
    ReconcileStatefulSet vanishingPlatform abortConfig 1 lagging host0 initialWorld =
      Run.done
        (none,
          { Name := "0-0",
            Chi := { Name := "a",
                     Status := { AddedHostsCount := 3, UpdatedHostsCount := 4 } } })
        { clock := 0,
          trace := [Call.getStatefulSet lagging.toObjectMeta,
            Call.update lagging,
            Call.updateChiObjectStatus
              { Name := "a", Status := { AddedHostsCount := 2, UpdatedHostsCount := 4 } },
            Call.create lagging,
            Call.listerGet "ns" "chi-a-0-0",
            Call.updateChiObjectStatus
              { Name := "a", Status := { AddedHostsCount := 3, UpdatedHostsCount := 4 } }] } := by
  decide

/-- C8: with the Abort policy, a waiter that returns an error `err` in world `w2`
makes the path return an error naming the phase and the resource, in that same
world `w2` (no call is added after the waiter's: no delete, no re-fetch, no
rollback update, no pod deletion).
`createStatefulSet` returns "Create failed on <namespace>/<name>", namespace and
name being those of the object `Create` returned; `updateStatefulSet` returns
"Update failed on <namespace>/<name>", namespace and name being those of the
StatefulSet as it was before the update. -/
theorem C8_abort_policy (p : Platform) (cfg : Config) (fuel : Nat) (w w2 : World)
    (err : Error) :
    (∀ (statefulSet created : StatefulSet) (host : ChiHost),
      p.create w.trace.length statefulSet = Except.ok created →
      waitStatefulSetGeneration p cfg fuel created.Namespace created.Name created.Generation
        (w.record (Call.create statefulSet)) = Run.done (some err) w2 →
      cfg.OnStatefulSetCreateFailureAction = OnStatefulSetCreateFailureActionAbort →
      createStatefulSet p cfg fuel statefulSet host w =
        Run.done (some (Error.errorString
          ("Create failed on " ++ created.Namespace ++ "/" ++ created.Name))) w2) ∧
    (∀ (oldStatefulSet newStatefulSet updated : StatefulSet),
      p.update w.trace.length newStatefulSet = UpdateResult.ok updated →
      updated.Generation ≠ oldStatefulSet.Generation →
      waitStatefulSetGeneration p cfg fuel newStatefulSet.Namespace newStatefulSet.Name
        updated.Generation (w.record (Call.update newStatefulSet)) = Run.done (some err) w2 →
      cfg.OnStatefulSetUpdateFailureAction = OnStatefulSetUpdateFailureActionAbort →
      updateStatefulSet p cfg fuel oldStatefulSet newStatefulSet w =
        Run.done (some (Error.errorString
          ("Update failed on " ++ oldStatefulSet.Namespace ++ "/" ++ oldStatefulSet.Name)))
          w2) := by
  constructor
  · intro statefulSet created host hcreate hwait habort
    simp [createStatefulSet, hcreate, hwait, Run.andThen, onStatefulSetCreateFailed, habort]
  · intro oldStatefulSet newStatefulSet updated hupdate hgen hwait habort
    simp [updateStatefulSet, hupdate, hgen, hwait, Run.andThen, onStatefulSetUpdateFailed,
      habort]

/-- C8 witness: scenario 2 of the specification on both paths: the status never
catches up with generation 5, the waiter gives up after 5 s, the policy is Abort. -/
theorem C8_abort_policy_witness :
    createStatefulSet stuckPlatform abortConfig 6 converged host0 initialWorld =
      Run.done (some (Error.errorString "Create failed on ns/chi-a-0-0"))
        { clock := 5000000000,
          trace := Call.create converged ::
            (pollCalls "ns" "chi-a-0-0" 1000000000 5 ++ [Call.listerGet "ns" "chi-a-0-0"]) } ∧
    updateStatefulSet stuckPlatform abortConfig 6 converged lagging initialWorld =
      Run.done (some (Error.errorString "Update failed on ns/chi-a-0-0"))
        { clock := 5000000000,
          trace := Call.update lagging ::
            (pollCalls "ns" "chi-a-0-0" 1000000000 5 ++ [Call.listerGet "ns" "chi-a-0-0"]) } :=
  ⟨(C8_abort_policy stuckPlatform abortConfig 6 initialWorld
      { clock := 5000000000,
        trace := Call.create converged ::
          (pollCalls "ns" "chi-a-0-0" 1000000000 5 ++ [Call.listerGet "ns" "chi-a-0-0"]) }
      (waitTimeoutError "ns" "chi-a-0-0")).1 converged lagging host0 rfl (by decide) rfl,
   (C8_abort_policy stuckPlatform abortConfig 6 initialWorld
      { clock := 5000000000,
        trace := Call.update lagging ::
          (pollCalls "ns" "chi-a-0-0" 1000000000 5 ++ [Call.listerGet "ns" "chi-a-0-0"]) }
      (waitTimeoutError "ns" "chi-a-0-0")).2 converged lagging lagging rfl (by decide)
      (by decide) rfl⟩

/-- C9: with the create-failure policy Delete, `onStatefulSetCreateFailed` adds
exactly one call to the trace, `deleteHost` on the host handle it was given
together with the failed StatefulSet, and returns the verdict of
`shouldContinueOnCreateFailed`, which is the error "create stopped due to previous
errors"; the result is the same on every platform, so whatever `deleteHost`
answers. -/
theorem C9_delete_policy (p : Platform) (cfg : Config) (failedStatefulSet : StatefulSet)
    (host : ChiHost) (w : World)
    (hdelete : cfg.OnStatefulSetCreateFailureAction = OnStatefulSetCreateFailureActionDelete) :
    onStatefulSetCreateFailed p cfg failedStatefulSet host w =
      Run.done (some (Error.errorString "create stopped due to previous errors"))
        { clock := w.clock, trace := w.trace ++ [Call.deleteHost host] } ∧
    shouldContinueOnCreateFailed =
      some (Error.errorString "create stopped due to previous errors") ∧
    ∀ p1 : Platform, onStatefulSetCreateFailed p1 cfg failedStatefulSet host w =
      onStatefulSetCreateFailed p cfg failedStatefulSet host w := by
  have hne : ¬ OnStatefulSetCreateFailureActionDelete = OnStatefulSetCreateFailureActionAbort := by
    decide
  refine ⟨?_, rfl, ?_⟩
  · simp [onStatefulSetCreateFailed, hdelete, hne, shouldContinueOnCreateFailed, World.record]
  · intro p1
    simp [onStatefulSetCreateFailed]

/-- C9 witness: the Delete policy on a platform whose `deleteHost` fails. -/
theorem C9_delete_policy_witness :
    onStatefulSetCreateFailed stuckPlatform remedyConfig lagging host0 initialWorld =
      Run.done (some (Error.errorString "create stopped due to previous errors"))
        { clock := initialWorld.clock,
          trace := initialWorld.trace ++ [Call.deleteHost host0] } :=
  (C9_delete_policy stuckPlatform remedyConfig lagging host0 initialWorld rfl).1

/-- C10 (refuted as stated): with the Rollback policy and a lister whose re-fetch
fails with a server error, `onStatefulSetUpdateFailed` returns that error, which is
not the continuation verdict, and the trace holds the re-fetch only: no `Update`
and no pod deletion. -/
theorem C10_counterexample :
    remedyConfig.OnStatefulSetUpdateFailureAction = OnStatefulSetUpdateFailureActionRollback ∧
    onStatefulSetUpdateFailed brokenListerPlatform remedyConfig converged initialWorld =
      Run.done (some serverError) { clock := 0, trace := [Call.listerGet "ns" "chi-a-0-0"] } ∧
    some serverError ≠ shouldContinueOnUpdateFailed := by
  decide

/-- C10 (amended): with the Rollback policy,
(1) when the re-fetch of the live StatefulSet succeeds, `onStatefulSetUpdateFailed`
makes, after the re-fetch, exactly one `Update`, of an object whose `Spec` is the
`Spec` of `rollbackStatefulSet` and whose other fields are those of the re-fetched
object, then exactly one pod-deletion call, on the pointer that `Update` returned,
and returns the error "update stopped due to previous errors", whether that
`Update` succeeded or failed;
(2) when the re-fetch fails, it returns the error of the re-fetch and makes no
`Update` and no pod-deletion call. -/
theorem C10_rollback_policy (p : Platform) (cfg : Config) (rollbackStatefulSet : StatefulSet)
    (w : World)
    (hrollback : cfg.OnStatefulSetUpdateFailureAction =
      OnStatefulSetUpdateFailureActionRollback) :
    (∀ live, p.listerGet w.trace.length rollbackStatefulSet.Namespace
        rollbackStatefulSet.Name = Except.ok live →
      ∃ submitted : StatefulSet,
        submitted.Spec = rollbackStatefulSet.Spec ∧
        submitted.toObjectMeta = live.toObjectMeta ∧
        submitted.Status = live.Status ∧
        onStatefulSetUpdateFailed p cfg rollbackStatefulSet w =
          Run.done (some (Error.errorString "update stopped due to previous errors"))
            { clock := w.clock,
              trace := w.trace ++
                [Call.listerGet rollbackStatefulSet.Namespace rollbackStatefulSet.Name,
                 Call.update submitted,
                 Call.statefulSetDeletePod
                  (match p.update (w.trace.length + 1) submitted with
                   | UpdateResult.ok updated => some updated
                   | UpdateResult.fail obj _ => obj)] }) ∧
    (∀ err, p.listerGet w.trace.length rollbackStatefulSet.Namespace
        rollbackStatefulSet.Name = Except.error err →
      onStatefulSetUpdateFailed p cfg rollbackStatefulSet w =
        Run.done (some err)
          { clock := w.clock,
            trace := w.trace ++
              [Call.listerGet rollbackStatefulSet.Namespace rollbackStatefulSet.Name] }) := by
  have hne : ¬ OnStatefulSetUpdateFailureActionRollback =
      OnStatefulSetUpdateFailureActionAbort := by decide
  constructor
  · intro live hfetch
    refine ⟨{ toObjectMeta := live.toObjectMeta, Spec := rollbackStatefulSet.Spec,
              Status := live.Status }, rfl, rfl, rfl, ?_⟩
    simp [onStatefulSetUpdateFailed, hrollback, hne, hfetch, shouldContinueOnUpdateFailed,
      World.record, StatefulSetSpec.DeepCopy]
  · intro err hfetch
    simp [onStatefulSetUpdateFailed, hrollback, hne, hfetch, World.record]

/-- C10 witness: scenario 3 of the specification: the live object is at generation 5,
the rollback submits it with the spec of the StatefulSet as it was before the
update; the pod deletion is called once. -/
theorem C10_rollback_policy_witness :
    ∃ submitted : StatefulSet,
      submitted.Spec = converged.Spec ∧
      submitted.toObjectMeta = lagging.toObjectMeta ∧
      submitted.Status = lagging.Status ∧
      onStatefulSetUpdateFailed stuckPlatform remedyConfig converged initialWorld =
        Run.done (some (Error.errorString "update stopped due to previous errors"))
          { clock := initialWorld.clock,
            trace := initialWorld.trace ++
              [Call.listerGet converged.Namespace converged.Name,
               Call.update submitted,
               Call.statefulSetDeletePod
                (match stuckPlatform.update (initialWorld.trace.length + 1) submitted with
                 | UpdateResult.ok updated => some updated
                 | UpdateResult.fail obj _ => obj)] } :=
  (C10_rollback_policy stuckPlatform remedyConfig converged initialWorld rfl).1 lagging rfl

/-! ### Unknown policy values and services: claims C11 and C12 -/

/-- C11: when the configured create-failure action is neither Abort nor Delete,
`onStatefulSetCreateFailed` returns `nil` in the world it was called in (no delete
call), and so `createStatefulSet` returns `nil` in the world in which the waiter
returned its error. When the configured update-failure action is neither Abort nor
Rollback, `onStatefulSetUpdateFailed` returns `nil` in the world it was called in
(no re-fetch, no update, no pod deletion), and so `updateStatefulSet` returns `nil`
in the world in which the waiter returned its error. -/
theorem C11_unknown_policy_returns_nil (p : Platform) (cfg : Config) (fuel : Nat)
    (w w2 : World) (err : Error) :
    (cfg.OnStatefulSetCreateFailureAction ≠ OnStatefulSetCreateFailureActionAbort →
      cfg.OnStatefulSetCreateFailureAction ≠ OnStatefulSetCreateFailureActionDelete →
      (∀ (failedStatefulSet : StatefulSet) (host : ChiHost) (w1 : World),
        onStatefulSetCreateFailed p cfg failedStatefulSet host w1 = Run.done none w1) ∧
      (∀ (statefulSet created : StatefulSet) (host : ChiHost),
        p.create w.trace.length statefulSet = Except.ok created →
        waitStatefulSetGeneration p cfg fuel created.Namespace created.Name created.Generation
          (w.record (Call.create statefulSet)) = Run.done (some err) w2 →
        createStatefulSet p cfg fuel statefulSet host w = Run.done none w2)) ∧
    (cfg.OnStatefulSetUpdateFailureAction ≠ OnStatefulSetUpdateFailureActionAbort →
      cfg.OnStatefulSetUpdateFailureAction ≠ OnStatefulSetUpdateFailureActionRollback →
      (∀ (rollbackStatefulSet : StatefulSet) (w1 : World),
        onStatefulSetUpdateFailed p cfg rollbackStatefulSet w1 = Run.done none w1) ∧
      (∀ (oldStatefulSet newStatefulSet updated : StatefulSet),
        p.update w.trace.length newStatefulSet = UpdateResult.ok updated →
        updated.Generation ≠ oldStatefulSet.Generation →
        waitStatefulSetGeneration p cfg fuel newStatefulSet.Namespace newStatefulSet.Name
          updated.Generation (w.record (Call.update newStatefulSet)) = Run.done (some err) w2 →
        updateStatefulSet p cfg fuel oldStatefulSet newStatefulSet w = Run.done none w2)) := by
  constructor
  · intro habort hdelete
    have hhandler : ∀ (failedStatefulSet : StatefulSet) (host : ChiHost) (w1 : World),
        onStatefulSetCreateFailed p cfg failedStatefulSet host w1 = Run.done none w1 := by
      intro failedStatefulSet host w1
      simp [onStatefulSetCreateFailed, habort, hdelete]
    refine ⟨hhandler, ?_⟩
    intro statefulSet created host hcreate hwait
    simp [createStatefulSet, hcreate, hwait, Run.andThen, hhandler]
  · intro habort hrollback
    have hhandler : ∀ (rollbackStatefulSet : StatefulSet) (w1 : World),
        onStatefulSetUpdateFailed p cfg rollbackStatefulSet w1 = Run.done none w1 := by
      intro rollbackStatefulSet w1
      simp [onStatefulSetUpdateFailed, habort, hrollback]
    refine ⟨hhandler, ?_⟩
    intro oldStatefulSet newStatefulSet updated hupdate hgen hwait
    simp [updateStatefulSet, hupdate, hgen, hwait, Run.andThen, hhandler]

/-- C11 witness: policy values "Delete" and "rolback" on a platform whose status
never catches up: the waiter gives up after 5 s and both paths return `nil`. -/
theorem C11_unknown_policy_returns_nil_witness :
    createStatefulSet stuckPlatform typoConfig 6 converged host0 initialWorld =
      Run.done none
        { clock := 5000000000,
          trace := Call.create converged ::
            (pollCalls "ns" "chi-a-0-0" 1000000000 5 ++ [Call.listerGet "ns" "chi-a-0-0"]) } ∧
    updateStatefulSet stuckPlatform typoConfig 6 converged lagging initialWorld =
      Run.done none
        { clock := 5000000000,
          trace := Call.update lagging ::
            (pollCalls "ns" "chi-a-0-0" 1000000000 5 ++ [Call.listerGet "ns" "chi-a-0-0"]) } :=
  ⟨((C11_unknown_policy_returns_nil stuckPlatform typoConfig 6 initialWorld
      { clock := 5000000000,
        trace := Call.create converged ::
          (pollCalls "ns" "chi-a-0-0" 1000000000 5 ++ [Call.listerGet "ns" "chi-a-0-0"]) }
      (waitTimeoutError "ns" "chi-a-0-0")).1 (by decide) (by decide)).2
      converged lagging host0 rfl (by decide),
   ((C11_unknown_policy_returns_nil stuckPlatform typoConfig 6 initialWorld
      { clock := 5000000000,
        trace := Call.update lagging ::
          (pollCalls "ns" "chi-a-0-0" 1000000000 5 ++ [Call.listerGet "ns" "chi-a-0-0"]) }
      (waitTimeoutError "ns" "chi-a-0-0")).2 (by decide) (by decide)).2
      converged lagging lagging rfl (by decide) (by decide)⟩

theorem returnErr_eq (err : Option Error) : returnErr err = err := by
  cases err <;> rfl

/-- C12: `ReconcileService` called with the desired `service`.
(1) When the fetch returns a live Service `cur`, the calls made after the fetch are
exactly one `Update`, of an object whose `Spec.ClusterIP` and `ResourceVersion` are
those of `cur` and whose other fields are those of `service`; no `Create` is made;
the result is the error `Update` returned (`nil` when it returned none).
(2) When the fetch returns no object and a not-found error, the calls made after
the fetch are exactly one `Create` of `service` as given, and no `Update`; the
result is the error `Create` returned.
(3) When the fetch returns no object and an error that is not not-found, that error
is returned and no call is made after the fetch. -/
theorem C12_reconcile_service (p : ServicePlatform) (service : Service)
    (trace : List ServiceCall) :
    (∀ cur err0, p.getService trace.length service.toObjectMeta = (some cur, err0) →
      ∃ submitted : Service,
        submitted.Spec.ClusterIP = cur.Spec.ClusterIP ∧
        submitted.ResourceVersion = cur.ResourceVersion ∧
        submitted.Namespace = service.Namespace ∧
        submitted.Name = service.Name ∧
        submitted.Generation = service.Generation ∧
        submitted.Spec.Type_ = service.Spec.Type_ ∧
        submitted.Spec.Ports = service.Spec.Ports ∧
        submitted.Status = service.Status ∧
        ReconcileService p service trace =
          { err := (p.update (trace.length + 1) submitted).2,
            service := submitted,
            trace := trace ++ [ServiceCall.getService service.toObjectMeta,
              ServiceCall.update submitted] }) ∧
    (∀ err, p.getService trace.length service.toObjectMeta = (none, some err) →
      IsNotFound (some err) = true →
      ReconcileService p service trace =
        { err := (p.create (trace.length + 1) service).2,
          service := service,
          trace := trace ++ [ServiceCall.getService service.toObjectMeta,
            ServiceCall.create service] }) ∧
    (∀ err, p.getService trace.length service.toObjectMeta = (none, some err) →
      IsNotFound (some err) = false →
      ReconcileService p service trace =
        { err := some err,
          service := service,
          trace := trace ++ [ServiceCall.getService service.toObjectMeta] }) := by
  refine ⟨?_, ?_, ?_⟩
  · intro cur err0 hfetch
    refine ⟨{ Namespace := service.Namespace, Name := service.Name,
              Generation := service.Generation, ResourceVersion := cur.ResourceVersion,
              Spec := { ClusterIP := cur.Spec.ClusterIP, Type_ := service.Spec.Type_,
                        Ports := service.Spec.Ports },
              Status := service.Status }, rfl, rfl, rfl, rfl, rfl, rfl, rfl, rfl, ?_⟩
    simp [ReconcileService, hfetch, returnErr_eq]
  · intro err hfetch hnf
    simp [ReconcileService, hfetch, hnf, returnErr_eq]
  · intro err hfetch hnf
    simp [ReconcileService, hfetch, hnf, returnErr_eq]

/-- C12 witness: a live service with cluster IP 10.0.0.7 and resource version 4711
and an `Update` that is rejected; an absent service; a fetch that fails. -/
theorem C12_reconcile_service_witness :
    (∃ submitted : Service,
        submitted.Spec.ClusterIP = "10.0.0.7" ∧
        submitted.ResourceVersion = "4711" ∧
        submitted.Spec.Ports = [8123, 9000] ∧
        ReconcileService liveServicePlatform desiredService [] =
          { err := some serverError,
            service := submitted,
            trace := [ServiceCall.getService desiredService.toObjectMeta,
              ServiceCall.update submitted] }) ∧
    ReconcileService noServicePlatform desiredService [] =
      { err := none,
        service := desiredService,
        trace := [ServiceCall.getService desiredService.toObjectMeta,
          ServiceCall.create desiredService] } ∧
    ReconcileService brokenServicePlatform desiredService [] =
      { err := some serverError,
        service := desiredService,
        trace := [ServiceCall.getService desiredService.toObjectMeta] } :=
  ⟨(fun ⟨submitted, hip, hrv, _, _, _, _, hports, _, hrun⟩ =>
      ⟨submitted, hip, hrv, hports, hrun⟩)
      ((C12_reconcile_service liveServicePlatform desiredService []).1 liveService none rfl),
   (C12_reconcile_service noServicePlatform desiredService []).2.1 notFoundError rfl rfl,
   (C12_reconcile_service brokenServicePlatform desiredService []).2.2 serverError rfl rfl⟩

end ClickHouseOperator
